import Mathlib

/-!
A shallow embedding, in Lean 4, of the resource-monitoring program
(`monitor.py`, plus its legacy variant), together with theorems checking the
program's natural-language specification against the code.

Modelling conventions, fixed once for the whole development:

* Python floats are modelled exactly.  Floats that the program merely reads
  from the OS and passes through or compares (CPU percentages, memory
  percent) are rationals (`ℚ`).  Floats produced by `round(x, 2)` from
  integer byte counts are represented as integer *hundredths* (`ℕ`): the
  Python value `round(p / q, 2)` is modelled as `divCenti p q` hundredths,
  using round-half-to-even (Python 3 `round` semantics) on exact rationals.
* Python byte/packet counters are `ℕ`; pids are `ℤ`.
* Python strings are Lean `String`s, except in the ping-output parser where
  the character-level splitting of the source is modelled on `List Char`
  (`pySplitOn`, `pySplitWs` mirror `str.split(sep)` and `str.split()`).
* `dict.get(key, default)` on a field that may be unavailable is modelled as
  `Option.getD`: an unavailable attribute yields the default.
* Python's `sorted(xs, key=k, reverse=True)` is a stable descending sort;
  it is embedded as the stable descending insertion sort `sortDesc k xs`
  (any two stable sorts with the same key agree extensionally).
* Raising an exception is modelled with `Except`/`Option` flow; a function
  that the source wraps in `try/except` is total here, with the handler's
  behaviour made explicit.
-/

namespace Monitor

/-! ## Small Python-semantics utilities -/

/-- `str.lower()`: per-character lowering of a Lean `String`
(written via `String.data` so that it evaluates in the kernel). -/
def pyLower (s : String) : String :=
  ⟨s.data.map Char.toLower⟩

/-- Round-half-to-even of the exact rational `p / q` (with `q ≠ 0` intended)
to the nearest integer, Python-3 `round` semantics, on naturals. -/
def rheNat (p q : ℕ) : ℕ :=
  let d := p / q
  let r := p % q
  if 2 * r < q then d
  else if q < 2 * r then d + 1
  else if d % 2 = 0 then d else d + 1

/-- The Python value `round(p / q, 2)` expressed in integer hundredths:
`divCenti p q = round-half-even of (100 * p) / q`. -/
def divCenti (p q : ℕ) : ℕ := rheNat (100 * p) q

theorem rheNat_le_succ (p q : ℕ) : rheNat p q ≤ p / q + 1 := by
  unfold rheNat; dsimp only; split_ifs <;> omega

theorem div_le_rheNat (p q : ℕ) : p / q ≤ rheNat p q := by
  unfold rheNat; dsimp only; split_ifs <;> omega

theorem rheNat_mono {p p' : ℕ} (q : ℕ) (h : p ≤ p') : rheNat p q ≤ rheNat p' q := by
  rcases Nat.lt_or_ge (p / q) (p' / q) with hlt | hge
  · have h1 := rheNat_le_succ p q
    have h2 := div_le_rheNat p' q
    omega
  · have hEq : p / q = p' / q := le_antisymm (Nat.div_le_div_right h) hge
    have hr : p % q ≤ p' % q := by
      have e1 := Nat.div_add_mod p q
      have e2 := Nat.div_add_mod p' q
      rw [hEq] at e1
      omega
    unfold rheNat
    dsimp only
    rw [hEq]
    split_ifs <;> omega

theorem divCenti_mono {p p' : ℕ} (q : ℕ) (h : p ≤ p') : divCenti p q ≤ divCenti p' q :=
  rheNat_mono q (by omega)

/-! ## Character-level splitting, mirroring Python `str.split` -/

/-- If `sep` is a prefix of `s`, return the remainder. -/
def dropPre : List Char → List Char → Option (List Char)
  | [], s => some s
  | _ :: _, [] => none
  | a :: as, b :: bs => if a = b then dropPre as bs else none

/-- Worker for `pySplitOn`: `acc` holds the current segment, reversed.
A non-empty separator consumes at least one character at each match, so a
fuel of `s.length` always suffices; fuel keeps the recursion structural
(hence kernel-evaluable). -/
def pySplitOnGo (sep : List Char) : ℕ → List Char → List Char → List (List Char)
  | _, [], acc => [acc.reverse]
  | 0, s, acc => [acc.reverse ++ s]
  | fuel + 1, c :: cs, acc =>
    match dropPre sep (c :: cs) with
    | some rest => acc.reverse :: pySplitOnGo sep fuel rest []
    | none => pySplitOnGo sep fuel cs (c :: acc)

/-- Python `s.split(sep)` for a non-empty separator, on `List Char`:
splits at each leftmost, non-overlapping occurrence of `sep`. -/
def pySplitOn (sep : List Char) (s : List Char) : List (List Char) :=
  if sep = [] then [s] else pySplitOnGo sep s.length s []

/-- Python's substring test `sep in s` (non-empty `sep`). -/
def pyContains (sep s : List Char) : Bool := 2 ≤ (pySplitOn sep s).length

/-- Worker for `pySplitWs`. -/
def pySplitWsGo : List Char → List Char → List (List Char)
  | [], acc => [acc.reverse]
  | c :: cs, acc =>
    if c.isWhitespace then acc.reverse :: pySplitWsGo cs []
    else pySplitWsGo cs (c :: acc)

/-- Python `s.split()` (no argument): split on whitespace runs, dropping
empty segments. -/
def pySplitWs (s : List Char) : List (List Char) :=
  (pySplitWsGo s []).filter (fun seg => !seg.isEmpty)

/-! ## Stable descending sort (Python `sorted(..., key=k, reverse=True)`) -/

/-- Insert `a` into a list already sorted non-increasingly by `key`,
before the first element whose key is `≤ key a` (so that, among equal
keys, the element inserted — which is the original-earlier one in
`sortDesc` — comes first; this matches Python's stable sort). -/
def insertDesc {α β : Type} [LinearOrder β] (key : α → β) (a : α) : List α → List α
  | [] => [a]
  | b :: bs => if key b ≤ key a then a :: b :: bs else b :: insertDesc key a bs

/-- Stable descending-by-key insertion sort: extensionally equal to Python's
`sorted(xs, key=key, reverse=True)`. -/
def sortDesc {α β : Type} [LinearOrder β] (key : α → β) : List α → List α
  | [] => []
  | a :: as => insertDesc key a (sortDesc key as)

theorem mem_insertDesc {α β : Type} [LinearOrder β] (key : α → β) (a x : α)
    (l : List α) : x ∈ insertDesc key a l ↔ x = a ∨ x ∈ l := by
  induction l with
  | nil => simp [insertDesc]
  | cons b bs ih =>
    simp only [insertDesc]
    split
    · simp
    · simp [ih]; tauto

theorem mem_sortDesc {α β : Type} [LinearOrder β] (key : α → β) (x : α)
    (l : List α) : x ∈ sortDesc key l ↔ x ∈ l := by
  induction l with
  | nil => simp [sortDesc]
  | cons a as ih => simp [sortDesc, mem_insertDesc, ih]

theorem pairwise_insertDesc {α β : Type} [LinearOrder β] (key : α → β) (a : α)
    (l : List α) (h : l.Pairwise (fun x y => key y ≤ key x)) :
    (insertDesc key a l).Pairwise (fun x y => key y ≤ key x) := by
  induction l with
  | nil => simp [insertDesc]
  | cons b bs ih =>
    simp only [insertDesc]
    rcases List.pairwise_cons.mp h with ⟨hb, hbs⟩
    split
    · rename_i hle
      refine List.pairwise_cons.mpr ⟨?_, h⟩
      intro y hy
      rcases List.mem_cons.mp hy with rfl | hy
      · exact hle
      · exact le_trans (hb y hy) hle
    · rename_i hgt
      push_neg at hgt
      refine List.pairwise_cons.mpr ⟨?_, ih hbs⟩
      intro y hy
      rw [mem_insertDesc] at hy
      rcases hy with hy | hy
      · subst hy; exact le_of_lt hgt
      · exact hb y hy

theorem pairwise_sortDesc {α β : Type} [LinearOrder β] (key : α → β)
    (l : List α) : (sortDesc key l).Pairwise (fun x y => key y ≤ key x) := by
  induction l with
  | nil => simp [sortDesc]
  | cons a as ih => exact pairwise_insertDesc key a _ ih

theorem length_insertDesc {α β : Type} [LinearOrder β] (key : α → β) (a : α)
    (l : List α) : (insertDesc key a l).length = l.length + 1 := by
  induction l with
  | nil => simp [insertDesc]
  | cons b bs ih =>
    simp only [insertDesc]
    split <;> simp [ih]

theorem length_sortDesc {α β : Type} [LinearOrder β] (key : α → β)
    (l : List α) : (sortDesc key l).length = l.length := by
  induction l with
  | nil => simp [sortDesc]
  | cons a as ih => simp [sortDesc, length_insertDesc, ih]

/-! ## Python values carried in log records

The category loggers are handed plain Python dicts (monitor.py lines
213-224) whose values are strings, ints, floats, lists and dicts.  `Jval`
is that value universe.  Floats produced by `round(_, 2)` are carried as
integer hundredths (`jcenti`); floats read from the OS and passed through
unchanged are exact rationals (`jq`). -/

inductive Jval where
  | jnull
  | jstr (s : String)
  | jint (n : ℤ)
  | jq (q : ℚ)
  | jcenti (n : ℕ)
  | jarr (elems : List Jval)
  | jobj (fields : List (String × Jval))

/-- JSON string escaping (quote and backslash; the program's strings never
contain control characters, whose escapes are not modelled). -/
def jsonEscape (s : String) : String :=
  s.data.foldl
    (fun acc c =>
      if c = '"' then acc ++ "\\\""
      else if c = '\\' then acc ++ "\\\\"
      else acc.push c) ""

/-- Decimal rendering of a value held in hundredths, as Python prints a
float rounded to two decimals (`3.0`, `3.5`, `3.25`). -/
def centiRepr (n : ℕ) : String :=
  let whole := n / 100
  let frac := n % 100
  if frac = 0 then toString whole ++ ".0"
  else if frac % 10 = 0 then toString whole ++ "." ++ toString (frac / 10)
  else if frac < 10 then toString whole ++ ".0" ++ toString frac
  else toString whole ++ "." ++ toString frac

/-- Rendering of a pass-through OS float; the exact digit string Python
would print is not load-bearing anywhere, so the rational's own rendering
is used. -/
def qRepr (q : ℚ) : String := toString q

mutual

/-- `json.dumps` with its default separators, over `Jval`. -/
def jsonDumps : Jval → String
  | .jnull => "null"
  | .jstr s => "\"" ++ jsonEscape s ++ "\""
  | .jint n => toString n
  | .jq q => qRepr q
  | .jcenti n => centiRepr n
  | .jarr l => "[" ++ String.intercalate ", " (jsonDumpsList l) ++ "]"
  | .jobj l => "\x7b" ++ String.intercalate ", " (jsonDumpsObj l) ++ "\x7d"

/-- `json.dumps` of the elements of a JSON array. -/
def jsonDumpsList : List Jval → List String
  | [] => []
  | v :: vs => jsonDumps v :: jsonDumpsList vs

/-- `json.dumps` of the key/value pairs of a JSON object. -/
def jsonDumpsObj : List (String × Jval) → List String
  | [] => []
  | (k, v) :: kvs => ("\"" ++ jsonEscape k ++ "\": " ++ jsonDumps v) :: jsonDumpsObj kvs

end

/-! ## The CSV formatter (`CSVFormatter`, monitor.py lines 35-61) -/

/-- `isinstance(value, (list, dict))` — the compound values that
`CSVFormatter.format` JSON-encodes into a single cell. -/
def isCompound : Jval → Bool
  | .jarr _ => true
  | .jobj _ => true
  | _ => false

/-- `str(value)` as the csv writer renders a non-compound cell value
(Python's csv module writes `None` as an empty cell). -/
def pyStrCell : Jval → String
  | .jnull => ""
  | .jstr s => s
  | .jint n => toString n
  | .jq q => qRepr q
  | .jcenti n => centiRepr n
  | .jarr l => jsonDumps (.jarr l)
  | .jobj l => jsonDumps (.jobj l)

/-- One data cell of `CSVFormatter.format` (monitor.py lines 50-56):
`value = record.msg.get(field, 'N/A')`, lists/dicts JSON-encoded into the
single cell, everything else rendered as is. -/
def csvCell (msg : List (String × Jval)) (field : String) : String :=
  match msg.lookup field with
  | none => "N/A"
  | some v => if isCompound v then jsonDumps v else pyStrCell v

/-- `CSVFormatter.format` (monitor.py lines 40-61), as the list of cells of
the produced CSV row: timestamp, level, then one cell per schema field
after the first two when the record is a dict, or the single message cell
otherwise.  (csv quoting never changes the cell count or contents and is
left to the writer.) -/
def csvFormat (fields : List String) (ts level : String) (msg : Jval) : List String :=
  [ts, level] ++
    (match msg with
     | .jobj kvs => (fields.drop 2).map (csvCell kvs)
     | other => [pyStrCell other])

/-- The `log_fields` table (monitor.py lines 64-70). -/
def logFieldsTable : List (String × List String) :=
  [ ("main", ["timestamp", "level", "message"]),
    ("cpu", ["timestamp", "level", "cpu_percent", "cpu_count", "per_cpu", "top_processes"]),
    ("memory", ["timestamp", "level", "total_gb", "used_gb", "available_gb", "percent", "top_processes"]),
    ("disk", ["timestamp", "level", "read_mb", "write_mb", "read_count", "write_count", "per_disk_io"]),
    ("network", ["timestamp", "level", "sent_mb", "recv_mb", "packets_sent", "packets_recv", "ping_status", "ping_latency", "ping_host"]) ]

/-- Field schema of one log category. -/
def logFields (name : String) : List String :=
  (logFieldsTable.lookup name).getD []

/-! ## `setup_logging` handler wiring (monitor.py lines 26-122) -/

inductive Handler where
  | flatFile (path : String)
  | csvFile (path : String)
  | console
  deriving DecidableEq, Repr

/-- Flat-file and CSV handlers write to files; the console handler does not. -/
def Handler.isFileHandler : Handler → Bool
  | .console => false
  | _ => true

/-- `LOG_FORMAT in ['log', 'both']` (monitor.py line 31). -/
def shouldLogFmt (fmt : String) : Bool := ["log", "both"].contains fmt

/-- `LOG_FORMAT in ['csv', 'both']` (monitor.py line 32). -/
def shouldCsvFmt (fmt : String) : Bool := ["csv", "both"].contains fmt

/-- The handlers `setup_logging` attaches to the category logger `name`
(monitor.py lines 74-120), given the raw `LOG_FORMAT` environment value
(lowered exactly as line 22 does), `LOG_DIR`, the mode tag, and
`CONSOLE_OUTPUT`.  No branch of the source raises for an unknown format:
both `should_log` and `should_csv` are simply false. -/
def setupHandlers (logFormatRaw logDir mode : String) (consoleOutput : Bool)
    (name : String) : List Handler :=
  let fmt := pyLower logFormatRaw
  (if shouldLogFmt fmt then [Handler.flatFile (logDir ++ "/" ++ name ++ "-" ++ mode ++ ".log")] else [])
  ++ (if shouldCsvFmt fmt && name != "main"
      then [Handler.csvFile (logDir ++ "/" ++ name ++ "-" ++ mode ++ ".csv")] else [])
  ++ (if name == "main" && consoleOutput then [Handler.console] else [])

/-! ## The rotating sink (`logging.handlers.RotatingFileHandler` as
configured in monitor.py lines 81-85 and 96-100) -/

/-- One output file with its rotated generations: `active` is the current
file as its list of lines (each stored without, but written with, a
trailing newline); `backups.get i` is generation `i + 1`
(`path.1`, `path.2`, ...). -/
structure SinkState where
  active : List String
  backups : List (List String)
  deriving DecidableEq, Repr

/-- On-disk byte size of a file holding `lines`, each newline-terminated. -/
def fileSize (lines : List String) : ℕ := (lines.map (fun l => l.length + 1)).sum

/-- `RotatingFileHandler.shouldRollover`: with `maxBytes > 0`, rotate when
the current size plus the pending newline-terminated record would reach
`maxBytes` (`stream.tell() + len(msg) >= self.maxBytes`). -/
def shouldRollover (maxBytes : ℕ) (s : SinkState) (line : String) : Bool :=
  decide (0 < maxBytes) && decide (maxBytes ≤ fileSize s.active + line.length + 1)

/-- `RotatingFileHandler.doRollover` with `backupCount = bc > 0`: deletes
generation `bc` if present, shifts every younger generation up by one,
renames the active file to generation 1 and reopens a fresh empty active
file (no header or other content is written to it). -/
def doRollover (bc : ℕ) (s : SinkState) : SinkState :=
  { active := [], backups := (s.active :: s.backups).take bc }

/-- `RotatingFileHandler.emit` of one formatted record: roll over first if
needed, then append the newline-terminated record. -/
def writeLine (maxBytes bc : ℕ) (line : String) (s : SinkState) : SinkState :=
  let s' := if shouldRollover maxBytes s line then doRollover bc s else s
  { s' with active := s'.active ++ [line] }

/-- A sequence of records written through the handler. -/
def writeLines (maxBytes bc : ℕ) (lines : List String) (s : SinkState) : SinkState :=
  lines.foldl (fun st l => writeLine maxBytes bc l st) s

/-- `maxBytes=10*1024*1024` passed to every handler (monitor.py lines 83, 98). -/
def monitorMaxBytes : ℕ := 10 * 1024 * 1024

/-- `backupCount=5` passed to every handler (monitor.py lines 84, 99). -/
def monitorBackupCount : ℕ := 5

/-- The CSV header written for the category (monitor.py line 104,
`','.join(log_fields[name])`; the trailing newline is the line
terminator). -/
def csvHeader (name : String) : String :=
  String.intercalate "," (logFields name)

/-- The CSV-file priming in `setup_logging` (monitor.py lines 102-106):
when the csv file does not exist (`existing = none`) or has size zero, it
is opened with mode `'w'` and the header line written; otherwise it is
left untouched.  This happens only here, at setup time. -/
def setupCsvFile (header : String) (existing : Option SinkState) : SinkState :=
  match existing with
  | none => { active := [header], backups := [] }
  | some s => if fileSize s.active = 0 then { s with active := [header] } else s

/-! ## Snapshot providers (monitor.py lines 126-170) -/

/-- One row yielded by `psutil.process_iter(['pid', 'name', 'cpu_percent'])`:
an attribute whose read failed or was unavailable is `none`. -/
structure ProcCpuInfo where
  pid : Option ℤ
  name : Option String
  cpu_percent : Option ℚ

/-- One entry of the CPU snapshot's `top_processes` (monitor.py line 132):
`pid` and `name` coalesced with `'N/A'`, the metric coalesced with `0.0`. -/
structure ProcCpuOut where
  pid : Jval
  name : String
  cpu_percent : ℚ

/-- `proc.info.get('pid', 'N/A')`: an int, or the string `'N/A'`. -/
def pidJval : Option ℤ → Jval
  | some i => .jint i
  | none => .jstr "N/A"

/-- The OS readings `get_cpu_stats` consumes in one tick. -/
structure CpuRaw where
  cpu_percent : ℚ
  cpu_count : ℕ
  per_cpu : List ℚ
  procs : List ProcCpuInfo

structure CpuSnap where
  cpu_percent : ℚ
  cpu_count : ℕ
  per_cpu : List ℚ
  top_processes : List ProcCpuOut

/-- `get_cpu_stats` (monitor.py lines 126-133).  The sort key is
`p.info.get('cpu_percent', 0)` and the emitted metric
`p.info.get('cpu_percent', 0.0)`: a process whose reading is unavailable is
coalesced to zero, not dropped. -/
def get_cpu_stats (processCount : ℕ) (raw : CpuRaw) : CpuSnap :=
  { cpu_percent := raw.cpu_percent
    cpu_count := raw.cpu_count
    per_cpu := raw.per_cpu
    top_processes :=
      ((sortDesc (fun p => p.cpu_percent.getD 0) raw.procs).take processCount).map
        (fun p =>
          { pid := pidJval p.pid, name := p.name.getD "N/A",
            cpu_percent := p.cpu_percent.getD 0 }) }

/-- `psutil`'s per-process `memory_info` result. -/
structure PyMemInfo where
  rss : ℕ
  vms : ℕ

/-- One row yielded by `psutil.process_iter(['pid', 'name', 'memory_info'])`;
`memory_info` is `none` when the read failed. -/
structure ProcMemInfo where
  pid : ℤ
  name : String
  memory_info : Option PyMemInfo

/-- `psutil.virtual_memory()`. -/
structure VirtualMemory where
  total : ℕ
  used : ℕ
  available : ℕ
  percent : ℚ

/-- One entry of the memory snapshot's `top_processes` (monitor.py
line 142); the three rounded floats are in hundredths. -/
structure ProcMemOut where
  pid : ℤ
  name : String
  rss_mb : ℕ
  vms_mb : ℕ
  percent : ℕ

structure MemSnap where
  total_gb : ℕ
  used_gb : ℕ
  available_gb : ℕ
  percent : ℚ
  top_processes : List ProcMemOut

/-- The OS readings `get_memory_stats` consumes in one tick. -/
structure MemRaw where
  vmem : VirtualMemory
  procs : List ProcMemInfo

/-- `get_memory_stats` (monitor.py lines 135-143).  The sort key is
`p.info['memory_info'].rss if p.info.get('memory_info') else 0`; the list
is truncated to `PROCESS_COUNT` first and only then are entries without a
readable `memory_info` skipped by the `if mem_info:` guard. -/
def get_memory_stats (processCount : ℕ) (raw : MemRaw) : MemSnap :=
  { total_gb := divCenti raw.vmem.total (1024 ^ 3)
    used_gb := divCenti raw.vmem.used (1024 ^ 3)
    available_gb := divCenti raw.vmem.available (1024 ^ 3)
    percent := raw.vmem.percent
    top_processes :=
      ((sortDesc
          (fun p => match p.memory_info with | some mi => mi.rss | none => 0)
          raw.procs).take processCount).filterMap
        (fun p =>
          match p.memory_info with
          | some mi =>
            some { pid := p.pid, name := p.name,
                   rss_mb := divCenti mi.rss (1024 ^ 2),
                   vms_mb := divCenti mi.vms (1024 ^ 2),
                   percent := divCenti (mi.rss * 100) raw.vmem.total }
          | none => none) }

/-- `psutil.disk_io_counters()`. -/
structure DiskIOCounters where
  read_bytes : ℕ
  write_bytes : ℕ
  read_count : ℕ
  write_count : ℕ

/-- One value of the `per_disk_io` mapping (monitor.py line 151), rounded
floats in hundredths. -/
structure PerDiskEntry where
  read_mb : ℕ
  write_mb : ℕ
  read_count : ℕ
  write_count : ℕ

/-- The OS readings `get_disk_io` consumes in one tick: the aggregate
counters, and the per-disk query, which the source wraps in its own
`try/except: pass` (an `error` models `psutil.disk_io_counters(perdisk=True)`
raising, which leaves the dict empty). -/
structure DiskRaw where
  counters : DiskIOCounters
  perdisk : Except String (List (String × DiskIOCounters))

structure DiskSnap where
  read_mb : ℕ
  write_mb : ℕ
  read_count : ℕ
  write_count : ℕ
  per_disk_io : List (String × PerDiskEntry)

/-- `get_disk_io` (monitor.py lines 145-154): megabyte conversions of the
raw cumulative counters of this instant; no previous reading is consulted
and no delta or rate is formed. -/
def get_disk_io (raw : DiskRaw) : DiskSnap :=
  { read_mb := divCenti raw.counters.read_bytes (1024 ^ 2)
    write_mb := divCenti raw.counters.write_bytes (1024 ^ 2)
    read_count := raw.counters.read_count
    write_count := raw.counters.write_count
    per_disk_io :=
      match raw.perdisk with
      | .error _ => []
      | .ok l =>
        l.map (fun dio =>
          (dio.1,
           { read_mb := divCenti dio.2.read_bytes (1024 ^ 2),
             write_mb := divCenti dio.2.write_bytes (1024 ^ 2),
             read_count := dio.2.read_count,
             write_count := dio.2.write_count })) }

/-- `psutil.net_io_counters()`. -/
structure NetIOCounters where
  bytes_sent : ℕ
  bytes_recv : ℕ
  packets_sent : ℕ
  packets_recv : ℕ

structure NetSnap where
  sent_mb : ℕ
  recv_mb : ℕ
  packets_sent : ℕ
  packets_recv : ℕ

/-- `get_network_stats` (monitor.py lines 168-170): megabyte conversions of
the raw cumulative counters of this instant; no previous reading is
consulted and no delta or rate is formed. -/
def get_network_stats (raw : NetIOCounters) : NetSnap :=
  { sent_mb := divCenti raw.bytes_sent (1024 ^ 2)
    recv_mb := divCenti raw.bytes_recv (1024 ^ 2)
    packets_sent := raw.packets_sent
    packets_recv := raw.packets_recv }

/-! ## The reachability probe (`ping_network`, monitor.py lines 156-166) -/

/-- Outcome of `subprocess.run(['ping', '-c', '1', '-W', '1', host],
capture_output=True, text=True, timeout=2)`: either the subprocess
completed (with exit code and captured stdout), or the call raised
(spawn failure, `TimeoutExpired`, I/O error). -/
inductive SpawnOutcome where
  | completed (returncode : ℤ) (stdout : List Char)
  | raised (msg : String)

/-- The dict `ping_network` returns; keys absent from a given return are
`none`. -/
structure PingResult where
  status : String
  latency_ms : Option (List Char)
  error : Option String
  host : String

/-- `ping_network` (monitor.py lines 156-166).  The whole body is wrapped
in one `try/except Exception`; on exit code 0, for the first stdout line
containing `time=`, `line.split('time=')[1].split()[0]` extracts the
latency token, and the `IndexError` raised there when no token follows
`time=` is caught by the same handler, yielding status `error`. -/
def ping_network (r : SpawnOutcome) (host : String) : PingResult :=
  match r with
  | .raised e => { status := "error", latency_ms := none, error := some e, host := host }
  | .completed rc out =>
    if rc = 0 then
      match (pySplitOn "\n".data out).find? (fun line => pyContains "time=".data line) with
      | some line =>
        match (pySplitWs (((pySplitOn "time=".data line).drop 1).headD [])).head? with
        | some tok =>
          { status := "success", latency_ms := some tok, error := none, host := host }
        | none =>
          { status := "error", latency_ms := none,
            error := some "list index out of range", host := host }
      | none => { status := "failed", latency_ms := none, error := none, host := host }
    else { status := "failed", latency_ms := none, error := none, host := host }

/-! ## The per-category log records (monitor.py lines 213-224) -/

/-- One `top_processes` element of the cpu dict as a JSON value. -/
def procCpuJval (p : ProcCpuOut) : Jval :=
  .jobj [("pid", p.pid), ("name", .jstr p.name), ("cpu_percent", .jq p.cpu_percent)]

/-- The dict logged to the cpu channel (monitor.py lines 213-215). -/
def cpuEntry (c : CpuSnap) : List (String × Jval) :=
  [ ("cpu_percent", .jq c.cpu_percent),
    ("cpu_count", .jint c.cpu_count),
    ("per_cpu", .jarr (c.per_cpu.map Jval.jq)),
    ("top_processes", .jarr (c.top_processes.map procCpuJval)) ]

/-- One `top_processes` element of the memory dict as a JSON value. -/
def procMemJval (p : ProcMemOut) : Jval :=
  .jobj [("pid", .jint p.pid), ("name", .jstr p.name), ("rss_mb", .jcenti p.rss_mb),
         ("vms_mb", .jcenti p.vms_mb), ("percent", .jcenti p.percent)]

/-- The dict logged to the memory channel (monitor.py lines 216-218). -/
def memEntry (m : MemSnap) : List (String × Jval) :=
  [ ("total_gb", .jcenti m.total_gb),
    ("used_gb", .jcenti m.used_gb),
    ("available_gb", .jcenti m.available_gb),
    ("percent", .jq m.percent),
    ("top_processes", .jarr (m.top_processes.map procMemJval)) ]

/-- One `per_disk_io` value as a JSON value. -/
def perDiskJval (e : PerDiskEntry) : Jval :=
  .jobj [("read_mb", .jcenti e.read_mb), ("write_mb", .jcenti e.write_mb),
         ("read_count", .jint e.read_count), ("write_count", .jint e.write_count)]

/-- The dict logged to the disk channel (monitor.py lines 219-221). -/
def diskEntry (d : DiskSnap) : List (String × Jval) :=
  [ ("read_mb", .jcenti d.read_mb),
    ("write_mb", .jcenti d.write_mb),
    ("read_count", .jint d.read_count),
    ("write_count", .jint d.write_count),
    ("per_disk_io", .jobj (d.per_disk_io.map (fun kv => (kv.1, perDiskJval kv.2)))) ]

/-- The dict logged to the network channel (monitor.py lines 222-224);
`ping_latency` is `ping.get('latency_ms', 'N/A')`. -/
def netEntry (n : NetSnap) (ping : PingResult) (host : String) : List (String × Jval) :=
  [ ("sent_mb", .jcenti n.sent_mb),
    ("recv_mb", .jcenti n.recv_mb),
    ("packets_sent", .jint n.packets_sent),
    ("packets_recv", .jint n.packets_recv),
    ("ping_status", .jstr ping.status),
    ("ping_latency", match ping.latency_ms with
                     | some t => .jstr ⟨t⟩
                     | none => .jstr "N/A"),
    ("ping_host", .jstr host) ]

/-! ## The main loop (monitor.py lines 200-252) -/

/-- The five f-string summary lines (monitor.py lines 227-231), modelled
structurally by the values interpolated into them. -/
inductive MainLine where
  | cpuSummary (cpu_percent : ℚ) (cores : ℕ) (topN : ℕ) (topName : String) (topPercent : ℚ)
  | memSummary (used_gb total_gb : ℕ) (percent : ℚ) (available_gb : ℕ)
      (topN : ℕ) (topName : String) (topPercent : ℕ)
  | diskSummary (read_mb read_count write_mb write_count : ℕ)
  | netSummary (sent_mb packets_sent recv_mb packets_recv : ℕ)
  | pingSummary (host : String) (latency : Option (List Char)) (status : String)

/-- One observable output of a tick, in emission order. -/
inductive Event where
  | logged (channel : String) (entry : List (String × Jval))
  | mainInfo (line : MainLine)
  | mainError (msg : String)
  | printed (line : MainLine)
  | printedError (msg : String)
  | printedSep

/-- The two outputs of the blanket `except Exception` handler
(monitor.py lines 247-250). -/
def errorEvents (e : String) : List Event :=
  [ .mainError ("Error in monitoring loop: " ++ e),
    .printedError ("ERROR: Error in monitoring loop: " ++ e) ]

/-- Inputs one iteration of the loop consumes: for each of the four psutil
providers, either the OS readings or the exception its sampling raised;
the ping subprocess outcome; and the `CONSOLE_OUTPUT` flag read this tick. -/
structure TickInput where
  cpu : Except String CpuRaw
  mem : Except String MemRaw
  disk : Except String DiskRaw
  net : Except String NetIOCounters
  ping : SpawnOutcome
  consoleOutput : Bool

/-- One iteration of the `while True:` body (monitor.py lines 200-250), as
the ordered list of log and console events it emits.  A single
`try/except Exception` wraps the whole body, so any raise short-circuits
to `errorEvents` and nothing sampled earlier in the tick is logged.  The
five providers are sampled in source order (lines 205-209) before any
logging (lines 213-224); the summary construction (lines 227-228) indexes
`top_processes[0]` for cpu and then memory, raising `IndexError` on an
empty list after the four category records have been written. -/
def tick (processCount : ℕ) (pingHost : String) (inp : TickInput) : List Event :=
  match inp.cpu with
  | .error e => errorEvents e
  | .ok cpuRaw =>
  match inp.mem with
  | .error e => errorEvents e
  | .ok memRaw =>
  match inp.disk with
  | .error e => errorEvents e
  | .ok diskRaw =>
  match inp.net with
  | .error e => errorEvents e
  | .ok netRaw =>
    let cpu := get_cpu_stats processCount cpuRaw
    let mem := get_memory_stats processCount memRaw
    let disk := get_disk_io diskRaw
    let net := get_network_stats netRaw
    let ping := ping_network inp.ping pingHost
    let catEvents : List Event :=
      [ .logged "cpu" (cpuEntry cpu),
        .logged "memory" (memEntry mem),
        .logged "disk" (diskEntry disk),
        .logged "network" (netEntry net ping pingHost) ]
    match cpu.top_processes.head? with
    | none => catEvents ++ errorEvents "list index out of range"
    | some c0 =>
    match mem.top_processes.head? with
    | none => catEvents ++ errorEvents "list index out of range"
    | some m0 =>
      let lines : List MainLine :=
        [ .cpuSummary cpu.cpu_percent cpu.cpu_count processCount c0.name c0.cpu_percent,
          .memSummary mem.used_gb mem.total_gb mem.percent mem.available_gb
            processCount m0.name m0.percent,
          .diskSummary disk.read_mb disk.read_count disk.write_mb disk.write_count,
          .netSummary net.sent_mb net.packets_sent net.recv_mb net.packets_recv,
          .pingSummary pingHost ping.latency_ms ping.status ]
      catEvents ++ lines.map Event.mainInfo
        ++ (if inp.consoleOutput then lines.map Event.printed ++ [Event.printedSep] else [])

/-- The loop itself: every tick runs to completion and yields its events;
no tick's outcome prevents the later ticks from running (the loop has no
exit path besides external termination). -/
def runTicks (processCount : ℕ) (pingHost : String) (inps : List TickInput) :
    List (List Event) :=
  inps.map (tick processCount pingHost)

/-- Event classifiers used in the theorems. -/
def Event.isCategoryLog : Event → Bool
  | .logged _ _ => true
  | _ => false

def Event.isMainInfo : Event → Bool
  | .mainInfo _ => true
  | _ => false

def Event.isMainError : Event → Bool
  | .mainError _ => true
  | _ => false

def Event.isConsoleOut : Event → Bool
  | .printed _ => true
  | .printedSep => true
  | _ => false

/-! ## The OS-call traces (for the cadence/priming contract) -/

/-- The blocking-relevant OS interactions the program performs.
`cpuPercentCall interval percpu` is `psutil.cpu_percent(interval=...)`:
with `interval=None` it returns instantly (delta against the previously
primed baseline); with `interval=t` it blocks for `t` seconds. -/
inductive OsCall where
  | cpuPercentCall (interval : Option ℕ) (percpu : Bool)
  | cpuCountCall
  | processIterCall
  | virtualMemoryCall
  | diskIoCountersCall (perdisk : Bool)
  | netIoCountersCall
  | subprocessRunCall (timeout : ℕ)
  | sleepCall (seconds : ℕ)
  deriving DecidableEq

/-- The psutil calls `get_cpu_stats` performs, in source order
(monitor.py lines 127, 128, 130, 133): both `cpu_percent` reads pass
`interval=None`. -/
def getCpuStatsCalls : List OsCall :=
  [ .cpuPercentCall none false, .cpuCountCall, .processIterCall, .cpuPercentCall none true ]

/-- The psutil calls of `get_memory_stats` (monitor.py lines 136, 138). -/
def getMemoryStatsCalls : List OsCall := [ .virtualMemoryCall, .processIterCall ]

/-- The psutil calls of `get_disk_io` (monitor.py lines 146, 149). -/
def getDiskIoCalls : List OsCall := [ .diskIoCountersCall false, .diskIoCountersCall true ]

/-- The psutil call of `get_network_stats` (monitor.py line 169). -/
def getNetworkStatsCalls : List OsCall := [ .netIoCountersCall ]

/-- The subprocess call of `ping_network` (monitor.py line 158),
`timeout=2` seconds. -/
def pingNetworkCalls : List OsCall := [ .subprocessRunCall 2 ]

/-- OS calls of one loop iteration (monitor.py lines 200-252): the five
providers in source order, then `time.sleep(interval)` (line 252). -/
def loopIterationCalls (interval : ℕ) : List OsCall :=
  getCpuStatsCalls ++ getMemoryStatsCalls ++ getDiskIoCalls ++ getNetworkStatsCalls
    ++ pingNetworkCalls ++ [ .sleepCall interval ]

/-- OS calls `main` makes before entering the loop (monitor.py lines
184-185): the throwaway CPU-baseline priming sample and a disk counters
read. -/
def mainStartupCalls : List OsCall :=
  [ .cpuPercentCall none true, .diskIoCountersCall false ]

/-- The program's OS-call stream, truncated after `ticks` iterations. -/
def programCalls (interval ticks : ℕ) : List OsCall :=
  mainStartupCalls ++ (List.replicate ticks (loopIterationCalls interval)).flatten

/-- A call that suspends the thread. -/
def OsCall.isSleep : OsCall → Bool
  | .sleepCall _ => true
  | _ => false

/-- A CPU sampling call in blocking (interval-based) mode. -/
def OsCall.isBlockingCpuSample : OsCall → Bool
  | .cpuPercentCall (some _) _ => true
  | _ => false

/-! ## Theorems about the spec's claims -/

/-- C9: For every LOG_FORMAT value outside {log, csv, both} (case-insensitive,
via the `.lower()` of monitor.py line 22), `setup_logging` attaches no
flat-file handler and no CSV handler to any category logger, so all file
output is silently disabled without any error being raised or reported. -/
theorem c9_unknown_log_format_silently_disables_files
    (raw logDir mode name : String) (co : Bool)
    (h : pyLower raw ≠ "log" ∧ pyLower raw ≠ "csv" ∧ pyLower raw ≠ "both") :
    (setupHandlers raw logDir mode co name).filter Handler.isFileHandler = [] := by
  obtain ⟨h1, h2, h3⟩ := h
  have e1 : shouldLogFmt (pyLower raw) = false := by
    unfold shouldLogFmt
    simp [h1, h3]
  have e2 : shouldCsvFmt (pyLower raw) = false := by
    unfold shouldCsvFmt
    simp [h2, h3]
  simp only [setupHandlers, e1, e2, Bool.false_and, Bool.false_eq_true, if_false,
    List.nil_append]
  split <;> rfl

/-- Witness for C9 at the concrete format value `"XML"`. -/
theorem c9_witness :
    (pyLower "XML" ≠ "log" ∧ pyLower "XML" ≠ "csv" ∧ pyLower "XML" ≠ "both")
    ∧ (setupHandlers "XML" "/var/log/monitor" "container" true "cpu").filter
        Handler.isFileHandler = [] :=
  ⟨by decide,
   c9_unknown_log_format_silently_disables_files "XML" "/var/log/monitor" "container" "cpu" true
     (by decide)⟩

/-- C6: the CSV encoder emits one row of exactly `2 + |schema - 2|` cells;
a compound (list/dict) field value is JSON-encoded into that one cell, and
an absent field renders as the fixed placeholder `N/A`, never as an empty
cell. -/
theorem c6_csv_compound_single_cell_and_na_placeholder
    (fields : List String) (ts level f1 f2 : String)
    (kvs : List (String × Jval)) (v : Jval)
    (habsent : kvs.lookup f1 = none)
    (hpresent : kvs.lookup f2 = some v)
    (hcompound : isCompound v = true) :
    csvFormat fields ts level (.jobj kvs) = [ts, level] ++ (fields.drop 2).map (csvCell kvs)
    ∧ (csvFormat fields ts level (.jobj kvs)).length = 2 + (fields.drop 2).length
    ∧ csvCell kvs f1 = "N/A"
    ∧ ("N/A" : String) ≠ ""
    ∧ csvCell kvs f2 = jsonDumps v := by
  refine ⟨rfl, by simp [csvFormat]; omega, ?_, by decide, ?_⟩
  · unfold csvCell
    rw [habsent]
  · unfold csvCell
    rw [hpresent]
    dsimp only
    rw [if_pos hcompound]

/-- Witness for C6: the cpu schema, a record holding a compound
`top_processes` list but no `per_cpu` key. -/
theorem c6_witness :
    csvCell [("cpu_percent", Jval.jq 7), ("top_processes", Jval.jarr [])] "per_cpu" = "N/A"
    ∧ csvCell [("cpu_percent", Jval.jq 7), ("top_processes", Jval.jarr [])] "top_processes"
        = jsonDumps (Jval.jarr []) :=
  haveI h := c6_csv_compound_single_cell_and_na_placeholder
    (logFields "cpu") "2024-01-01 00:00:00" "INFO" "per_cpu" "top_processes"
    [("cpu_percent", Jval.jq 7), ("top_processes", Jval.jarr [])] (Jval.jarr [])
    rfl rfl rfl
  ⟨h.2.2.1, h.2.2.2.2⟩

/-- C7: CPU sampling is non-blocking — every `cpu_percent` call of the
provider passes `interval=None`; the very first OS call of the program is
the throwaway baseline-priming sample made before the loop (monitor.py
line 184); and the only suspension in a loop iteration is the scheduler's
own `time.sleep(interval)`. -/
theorem c7_nonblocking_cpu_sampling_and_priming (interval ticks : ℕ) :
    getCpuStatsCalls.filter OsCall.isBlockingCpuSample = []
    ∧ (loopIterationCalls interval).filter OsCall.isBlockingCpuSample = []
    ∧ (loopIterationCalls interval).filter OsCall.isSleep = [.sleepCall interval]
    ∧ (programCalls interval ticks).head? = some (.cpuPercentCall none true)
    ∧ mainStartupCalls.filter OsCall.isSleep = [] := by
  refine ⟨rfl, rfl, rfl, rfl, rfl⟩

/-- C5: with the configured rotation policy (10 MiB trigger, 5 backlog
generations), after any sequence of writes the sink holds at most 5 old
generations besides the active file, and a rotation of a sink whose
backlog is full shifts every generation up by one and deletes the oldest. -/
theorem c5_backlog_bound_and_oldest_deleted
    (lines : List String) (s sFull : SinkState)
    (hs : s.backups.length ≤ monitorBackupCount)
    (hFull : sFull.backups.length = monitorBackupCount) :
    (writeLines monitorMaxBytes monitorBackupCount lines s).backups.length ≤ monitorBackupCount
    ∧ (doRollover monitorBackupCount sFull).backups
        = sFull.active :: sFull.backups.dropLast
    ∧ (doRollover monitorBackupCount sFull).active = []
    ∧ monitorMaxBytes = 10 * 1024 * 1024
    ∧ monitorBackupCount = 5 := by
  refine ⟨?_, ?_, rfl, rfl, rfl⟩
  · induction lines generalizing s with
    | nil => exact hs
    | cons l ls ih =>
      have step : (writeLine monitorMaxBytes monitorBackupCount l s).backups.length
          ≤ monitorBackupCount := by
        unfold writeLine doRollover
        dsimp only
        split
        · simp [List.length_take]
        · exact hs
      exact ih _ step
  · unfold doRollover
    have : sFull.backups.dropLast = sFull.backups.take (monitorBackupCount - 1) := by
      rw [List.dropLast_eq_take, hFull]
    simp only [this]
    rw [show monitorBackupCount = (monitorBackupCount - 1) + 1 from rfl]
    rfl

/-- Witness for C5: two writes into an empty sink, and one rotation of a
sink whose backlog already holds five generations. -/
theorem c5_witness :
    (writeLines monitorMaxBytes monitorBackupCount ["a", "b"] ⟨[], []⟩).backups.length
        ≤ monitorBackupCount
    ∧ (doRollover monitorBackupCount ⟨["g0"], [["g1"], ["g2"], ["g3"], ["g4"], ["g5"]]⟩).backups
        = ["g0"] :: [["g1"], ["g2"], ["g3"], ["g4"], ["g5"]].dropLast
    ∧ (doRollover monitorBackupCount ⟨["g0"], [["g1"], ["g2"], ["g3"], ["g4"], ["g5"]]⟩).active = []
    ∧ monitorMaxBytes = 10 * 1024 * 1024
    ∧ monitorBackupCount = 5 :=
  c5_backlog_bound_and_oldest_deleted ["a", "b"] ⟨[], []⟩
    ⟨["g0"], [["g1"], ["g2"], ["g3"], ["g4"], ["g5"]]⟩ (by decide) (by decide)

/-- A write whose rollover check fires rotates exactly once: the backlog
shifts up one generation and the fresh active file holds just the written
record. -/
theorem writeLine_of_rollover {maxB bc : ℕ} {line : String} {s : SinkState}
    (h : shouldRollover maxB s line = true) :
    writeLine maxB bc line s
      = { active := [line], backups := (s.active :: s.backups).take bc } := by
  unfold writeLine
  rw [h]
  rfl

/-- A write whose rollover check does not fire just appends. -/
theorem writeLine_of_no_rollover {maxB bc : ℕ} {line : String} {s : SinkState}
    (h : shouldRollover maxB s line = false) :
    writeLine maxB bc line s = { s with active := s.active ++ [line] } := by
  unfold writeLine
  rw [h]
  rfl

/-- The single oversized record used to force a rotation under the
configured 10 MiB policy. -/
def c4line : String := ⟨List.replicate (10 * 1024 * 1024) 'a'⟩

theorem c4line_length : c4line.length = 10 * 1024 * 1024 := by
  show (String.mk (List.replicate (10 * 1024 * 1024) 'a')).length = 10 * 1024 * 1024
  rw [String.length]
  exact List.length_replicate _ _

theorem c4header_length : (csvHeader "cpu").length = 59 := by decide

theorem c4setup_size : fileSize (setupCsvFile (csvHeader "cpu") none).active = 60 := by
  decide

theorem c4line_straddles :
    monitorMaxBytes
      ≤ fileSize (setupCsvFile (csvHeader "cpu") none).active + c4line.length + 1 := by
  rw [c4setup_size, c4line_length]
  unfold monitorMaxBytes
  omega

theorem c4_rollover_fires :
    shouldRollover monitorMaxBytes (setupCsvFile (csvHeader "cpu") none) c4line = true := by
  unfold shouldRollover
  rw [Bool.and_eq_true]
  exact ⟨decide_eq_true (by unfold monitorMaxBytes; omega), decide_eq_true c4line_straddles⟩

/-- C4 is false on the code: the header is written only by `setup_logging`
at startup; the fresh file `RotatingFileHandler` opens after a
size-triggered rotation begins with the rotated-in data line, not with the
category's header. -/
theorem c4_counterexample :
    shouldRollover monitorMaxBytes (setupCsvFile (csvHeader "cpu") none) c4line = true
    ∧ (writeLine monitorMaxBytes monitorBackupCount c4line
        (setupCsvFile (csvHeader "cpu") none)).active.head? = some c4line
    ∧ c4line ≠ csvHeader "cpu" := by
  refine ⟨c4_rollover_fires, ?_, ?_⟩
  · rw [writeLine_of_rollover c4_rollover_fires]
    rfl
  · intro h
    have := congrArg String.length h
    rw [c4line_length, c4header_length] at this
    omega

/-- C4 amended: the category's header is the first line of the file the
CSV sink opens at setup when the file is new or empty — and only then; a
write that straddles `max_size_bytes` triggers exactly one rotation, and
the fresh active file then begins with the data line just written, not
with the header. -/
theorem c4_amended_header_only_at_setup
    (name : String) (maxB bc : ℕ) (line : String) (sOld : SinkState)
    (hroll : shouldRollover maxB (setupCsvFile (csvHeader name) none) line = true)
    (hOld : fileSize sOld.active ≠ 0) :
    (setupCsvFile (csvHeader name) none).active = [csvHeader name]
    ∧ setupCsvFile (csvHeader name) (some sOld) = sOld
    ∧ writeLine maxB bc line (setupCsvFile (csvHeader name) none)
        = { active := [line],
            backups := ([csvHeader name] :: ([] : List (List String))).take bc }
    ∧ (writeLine maxB bc line (setupCsvFile (csvHeader name) none)).active.head?
        = some line := by
  refine ⟨rfl, ?_, ?_, ?_⟩
  · simp only [setupCsvFile]
    rw [if_neg hOld]
  · rw [writeLine_of_rollover hroll]
    rfl
  · rw [writeLine_of_rollover hroll]
    rfl

/-- Witness for the amended C4 with a 10-byte rotation threshold. -/
theorem c4_amended_witness :
    (setupCsvFile (csvHeader "cpu") none).active = [csvHeader "cpu"]
    ∧ setupCsvFile (csvHeader "cpu") (some ⟨["old"], []⟩) = ⟨["old"], []⟩
    ∧ writeLine 10 5 "row" (setupCsvFile (csvHeader "cpu") none)
        = { active := ["row"],
            backups := ([csvHeader "cpu"] :: ([] : List (List String))).take 5 }
    ∧ (writeLine 10 5 "row" (setupCsvFile (csvHeader "cpu") none)).active.head?
        = some "row" :=
  c4_amended_header_only_at_setup "cpu" 10 5 "row" ⟨["old"], []⟩ (by decide) (by decide)

/-- C3 is false on the code at one input: the probe subprocess exits
successfully and no latency is parseable from its stdout (`"time="` with
nothing after it), yet the `IndexError` raised by `split()[0]` is caught
by the blanket handler, so the status is `error` with the error detail
populated — not `failed`, as the claim requires for
exit-success-without-parseable-latency. -/
theorem c3_counterexample :
    (ping_network (.completed 0 "time=".data) "8.8.8.8").status = "error"
    ∧ (ping_network (.completed 0 "time=".data) "8.8.8.8").status ≠ "failed"
    ∧ (ping_network (.completed 0 "time=".data) "8.8.8.8").latency_ms = none
    ∧ (ping_network (.completed 0 "time=".data) "8.8.8.8").error
        = some "list index out of range" :=
  ⟨rfl, by decide, rfl, rfl⟩

/-- C3 amended: the probe never lets an exception propagate and maps every
invocation as follows — a raise while spawning/timing out/reading yields
status `error` with the error detail; a non-zero exit yields `failed`; a
zero exit with no stdout line containing `time=` yields `failed`; a zero
exit whose first `time=` line has a whitespace-delimited token after
`time=` yields `success` carrying that token (units stripped); and a zero
exit whose first `time=` line has no token after `time=` yields `error`
(the caught `IndexError`), not `failed`. -/
theorem c3_amended_probe_case_mapping (r : SpawnOutcome) (host : String) :
    (∃ e, r = .raised e
      ∧ ping_network r host = ⟨"error", none, some e, host⟩)
    ∨ (∃ rc out, r = .completed rc out ∧ rc ≠ 0
      ∧ ping_network r host = ⟨"failed", none, none, host⟩)
    ∨ (∃ out, r = .completed 0 out
      ∧ (pySplitOn "\n".data out).find? (fun line => pyContains "time=".data line) = none
      ∧ ping_network r host = ⟨"failed", none, none, host⟩)
    ∨ (∃ out line tok rest, r = .completed 0 out
      ∧ (pySplitOn "\n".data out).find? (fun line => pyContains "time=".data line) = some line
      ∧ pySplitWs (((pySplitOn "time=".data line).drop 1).headD []) = tok :: rest
      ∧ ping_network r host = ⟨"success", some tok, none, host⟩)
    ∨ (∃ out line, r = .completed 0 out
      ∧ (pySplitOn "\n".data out).find? (fun line => pyContains "time=".data line) = some line
      ∧ pySplitWs (((pySplitOn "time=".data line).drop 1).headD []) = []
      ∧ ping_network r host = ⟨"error", none, some "list index out of range", host⟩) := by
  cases r with
  | raised e => exact Or.inl ⟨e, rfl, rfl⟩
  | completed rc out =>
    by_cases hrc : rc = 0
    · subst hrc
      cases hf : (pySplitOn "\n".data out).find? (fun line => pyContains "time=".data line) with
      | none =>
        refine Or.inr (Or.inr (Or.inl ⟨out, rfl, hf, ?_⟩))
        unfold ping_network
        dsimp only
        simp only [reduceIte]
        rw [hf]
      | some line =>
        cases ht : pySplitWs (((pySplitOn "time=".data line).drop 1).headD []) with
        | nil =>
          refine Or.inr (Or.inr (Or.inr (Or.inr ⟨out, line, rfl, hf, ht, ?_⟩)))
          unfold ping_network
          dsimp only
          simp only [reduceIte]
          rw [hf]
          dsimp only
          rw [ht]
          rfl
        | cons tok rest =>
          refine Or.inr (Or.inr (Or.inr (Or.inl ⟨out, line, tok, rest, rfl, hf, ht, ?_⟩)))
          unfold ping_network
          dsimp only
          simp only [reduceIte]
          rw [hf]
          dsimp only
          rw [ht]
          rfl
    · refine Or.inr (Or.inl ⟨rc, out, rfl, hrc, ?_⟩)
      unfold ping_network
      dsimp only
      rw [if_neg hrc]

/-- C8: with every provider sampled successfully, the third and fourth
records a tick writes are the disk and network rows; the disk row is a
function of this tick's raw cumulative disk counters alone (two ticks that
read the same counters log identical disk rows no matter how every other
reading differs), likewise the network counters row; and the logged values
are the cumulative totals converted to MB, not deltas or rates. -/
theorem c8_raw_cumulative_totals
    (n : ℕ) (host : String) (i1 i2 : TickInput)
    (c1 c2 : CpuRaw) (m1 m2 : MemRaw) (d : DiskRaw) (w : NetIOCounters)
    (h1c : i1.cpu = .ok c1) (h2c : i2.cpu = .ok c2)
    (h1m : i1.mem = .ok m1) (h2m : i2.mem = .ok m2)
    (h1d : i1.disk = .ok d) (h2d : i2.disk = .ok d)
    (h1n : i1.net = .ok w) (h2n : i2.net = .ok w)
    (hp : i1.ping = i2.ping) :
    (tick n host i1)[2]? = some (.logged "disk" (diskEntry (get_disk_io d)))
    ∧ (tick n host i1)[3]?
        = some (.logged "network"
            (netEntry (get_network_stats w) (ping_network i1.ping host) host))
    ∧ (tick n host i1)[2]? = (tick n host i2)[2]?
    ∧ (tick n host i1)[3]? = (tick n host i2)[3]?
    ∧ (get_disk_io d).read_mb = divCenti d.counters.read_bytes (1024 ^ 2)
    ∧ (get_disk_io d).write_mb = divCenti d.counters.write_bytes (1024 ^ 2)
    ∧ (get_network_stats w).sent_mb = divCenti w.bytes_sent (1024 ^ 2)
    ∧ (get_network_stats w).recv_mb = divCenti w.bytes_recv (1024 ^ 2) := by
  have ev1 : ∀ (i : TickInput) (c : CpuRaw) (m : MemRaw),
      i.cpu = .ok c → i.mem = .ok m → i.disk = .ok d → i.net = .ok w →
      (tick n host i)[2]? = some (.logged "disk" (diskEntry (get_disk_io d)))
      ∧ (tick n host i)[3]?
          = some (.logged "network"
              (netEntry (get_network_stats w) (ping_network i.ping host) host)) := by
    intro i c m hc hm hd hn
    unfold tick
    rw [hc, hm, hd, hn]
    dsimp only
    constructor
    · cases (get_cpu_stats n c).top_processes.head? <;>
        first
          | rfl
          | (cases (get_memory_stats n m).top_processes.head? <;> rfl)
    · cases (get_cpu_stats n c).top_processes.head? <;>
        first
          | rfl
          | (cases (get_memory_stats n m).top_processes.head? <;> rfl)
  obtain ⟨e12, e13⟩ := ev1 i1 c1 m1 h1c h1m h1d h1n
  obtain ⟨e22, e23⟩ := ev1 i2 c2 m2 h2c h2m h2d h2n
  refine ⟨e12, e13, ?_, ?_, rfl, rfl, rfl, rfl⟩
  · rw [e12, e22]
  · rw [e13, e23, hp]

/-- Concrete inputs for the C8 witness: two ticks sharing disk and network
counters but with different CPU and memory readings. -/
def c8inpA : TickInput where
  cpu := .ok ⟨12, 4, [], []⟩
  mem := .ok ⟨⟨8, 1, 7, 50⟩, []⟩
  disk := .ok ⟨⟨1024 ^ 2, 2 * 1024 ^ 2, 3, 4⟩, .ok []⟩
  net := .ok ⟨1024 ^ 2, 0, 9, 8⟩
  ping := .raised "timeout"
  consoleOutput := false

/-- Second C8 witness tick: same disk/network counters, different rest. -/
def c8inpB : TickInput where
  cpu := .ok ⟨99, 8, [1], []⟩
  mem := .ok ⟨⟨16, 2, 14, 75⟩, []⟩
  disk := .ok ⟨⟨1024 ^ 2, 2 * 1024 ^ 2, 3, 4⟩, .ok []⟩
  net := .ok ⟨1024 ^ 2, 0, 9, 8⟩
  ping := .raised "timeout"
  consoleOutput := false

/-- Witness for C8 at the two concrete ticks. -/
theorem c8_witness :
    (tick 5 "8.8.8.8" c8inpA)[2]? = (tick 5 "8.8.8.8" c8inpB)[2]?
    ∧ (tick 5 "8.8.8.8" c8inpA)[3]? = (tick 5 "8.8.8.8" c8inpB)[3]? :=
  haveI h := c8_raw_cumulative_totals 5 "8.8.8.8" c8inpA c8inpB
    ⟨12, 4, [], []⟩ ⟨99, 8, [1], []⟩ ⟨⟨8, 1, 7, 50⟩, []⟩ ⟨⟨16, 2, 14, 75⟩, []⟩
    ⟨⟨1024 ^ 2, 2 * 1024 ^ 2, 3, 4⟩, .ok []⟩ ⟨1024 ^ 2, 0, 9, 8⟩
    rfl rfl rfl rfl rfl rfl rfl rfl rfl
  ⟨h.2.2.1, h.2.2.2.1⟩

/-- The process table for the C2 counterexample: a single process whose
cpu metric read is unavailable. -/
def c2raw : CpuRaw where
  cpu_percent := 10
  cpu_count := 2
  per_cpu := []
  procs := [⟨some 1, some "worker", none⟩]

/-- C2 is false on the code: the CPU ranking includes a process whose
metric read was unavailable, zero-filling its `cpu_percent` with `0.0`
(monitor.py lines 130-132, `p.info.get('cpu_percent', 0)`), instead of
excluding it as the claim requires. -/
theorem c2_counterexample :
    (get_cpu_stats 5 c2raw).top_processes = [⟨.jint 1, "worker", 0⟩]
    ∧ c2raw.procs = [⟨some 1, some "worker", none⟩]
    ∧ (get_cpu_stats 5 c2raw).top_processes ≠ [] :=
  ⟨rfl, rfl, List.cons_ne_nil _ _⟩

/-- C2 amended: both rankings return at most `PROCESS_COUNT` entries,
ordered non-increasingly by their metric; the memory ranking excludes
every process whose `memory_info` read failed (each emitted entry comes
from a process with a readable metric); the CPU ranking instead includes
processes with an unavailable `cpu_percent`, zero-filled as `0.0` (each
emitted entry carries `p.info.get('cpu_percent', 0.0)` of some enumerated
process). -/
theorem c2_amended_ranking (n : ℕ) (craw : CpuRaw) (mraw : MemRaw)
    (q : ProcMemOut) (r : ProcCpuOut)
    (hq : q ∈ (get_memory_stats n mraw).top_processes)
    (hr : r ∈ (get_cpu_stats n craw).top_processes) :
    (get_cpu_stats n craw).top_processes.length ≤ n
    ∧ (get_memory_stats n mraw).top_processes.length ≤ n
    ∧ (get_cpu_stats n craw).top_processes.Pairwise
        (fun a b => b.cpu_percent ≤ a.cpu_percent)
    ∧ (get_memory_stats n mraw).top_processes.Pairwise (fun a b => b.rss_mb ≤ a.rss_mb)
    ∧ (get_memory_stats n mraw).top_processes.Pairwise (fun a b => b.percent ≤ a.percent)
    ∧ (∃ p, p ∈ mraw.procs ∧ ∃ mi, p.memory_info = some mi ∧ q.pid = p.pid
        ∧ q.name = p.name ∧ q.rss_mb = divCenti mi.rss (1024 ^ 2))
    ∧ (∃ p, p ∈ craw.procs ∧ r.pid = pidJval p.pid ∧ r.name = p.name.getD "N/A"
        ∧ r.cpu_percent = p.cpu_percent.getD 0) := by
  refine ⟨?_, ?_, ?_, ?_, ?_, ?_, ?_⟩
  · unfold get_cpu_stats
    dsimp only
    rw [List.length_map, List.length_take]
    omega
  · unfold get_memory_stats
    dsimp only
    refine le_trans (List.length_filterMap_le _ _) ?_
    rw [List.length_take]
    omega
  · unfold get_cpu_stats
    dsimp only
    rw [List.pairwise_map]
    exact List.Pairwise.sublist (List.take_sublist _ _) (pairwise_sortDesc _ _)
  · unfold get_memory_stats
    dsimp only
    rw [List.pairwise_filterMap]
    refine List.Pairwise.imp ?_
      (List.Pairwise.sublist (List.take_sublist _ _) (pairwise_sortDesc _ _))
    intro a b hab x hx y hy
    cases hma : a.memory_info with
    | none => rw [hma] at hx; simp at hx
    | some mia =>
      cases hmb : b.memory_info with
      | none => rw [hmb] at hy; simp at hy
      | some mib =>
        rw [hma] at hx
        rw [hmb] at hy
        simp only [Option.mem_def, Option.some_inj] at hx hy
        subst hx
        subst hy
        dsimp only
        apply divCenti_mono
        rw [hma, hmb] at hab
        exact hab
  · unfold get_memory_stats
    dsimp only
    rw [List.pairwise_filterMap]
    refine List.Pairwise.imp ?_
      (List.Pairwise.sublist (List.take_sublist _ _) (pairwise_sortDesc _ _))
    intro a b hab x hx y hy
    cases hma : a.memory_info with
    | none => rw [hma] at hx; simp at hx
    | some mia =>
      cases hmb : b.memory_info with
      | none => rw [hmb] at hy; simp at hy
      | some mib =>
        rw [hma] at hx
        rw [hmb] at hy
        simp only [Option.mem_def, Option.some_inj] at hx hy
        subst hx
        subst hy
        dsimp only
        apply divCenti_mono
        rw [hma, hmb] at hab
        exact Nat.mul_le_mul_right 100 hab
  · unfold get_memory_stats at hq
    dsimp only at hq
    obtain ⟨p, hp, hfp⟩ := List.mem_filterMap.mp hq
    refine ⟨p, (mem_sortDesc _ _ _).mp (List.mem_of_mem_take hp), ?_⟩
    cases hmp : p.memory_info with
    | none => rw [hmp] at hfp; simp at hfp
    | some mi =>
      rw [hmp] at hfp
      simp only [Option.some_inj] at hfp
      exact ⟨mi, rfl, by rw [← hfp], by rw [← hfp], by rw [← hfp]⟩
  · unfold get_cpu_stats at hr
    dsimp only at hr
    obtain ⟨p, hp, hfp⟩ := List.mem_map.mp hr
    exact ⟨p, (mem_sortDesc _ _ _).mp (List.mem_of_mem_take hp),
      by rw [← hfp], by rw [← hfp], by rw [← hfp]⟩

/-- CPU readings for the C2 witness. -/
def c2wCpuRaw : CpuRaw where
  cpu_percent := 0
  cpu_count := 1
  per_cpu := []
  procs := [⟨some 3, some "idle", some 2⟩]

/-- Memory readings for the C2 witness. -/
def c2wMemRaw : MemRaw where
  vmem := ⟨1024 ^ 3, 0, 0, 0⟩
  procs := [⟨4, "svc", some ⟨1024 ^ 2, 0⟩⟩]

/-- Witness for the amended C2 at one readable process per table. -/
theorem c2_amended_witness :
    (get_cpu_stats 5 c2wCpuRaw).top_processes.length ≤ 5
    ∧ (get_memory_stats 5 c2wMemRaw).top_processes.length ≤ 5 :=
  haveI h := c2_amended_ranking 5 c2wCpuRaw c2wMemRaw ⟨4, "svc", 100, 0, 10⟩
    ⟨Jval.jint 3, "idle", 2⟩ (List.mem_singleton.mpr rfl) (List.mem_singleton.mpr rfl)
  ⟨h.1, h.2.1⟩

/-- The tick input of the C1 counterexample: the memory provider raises,
every other provider samples fine. -/
def c1inp : TickInput where
  cpu := .ok ⟨0, 1, [], []⟩
  mem := .error "memory provider failure"
  disk := .ok ⟨⟨0, 0, 0, 0⟩, .ok []⟩
  net := .ok ⟨0, 0, 0, 0⟩
  ping := .completed 0 "time=1.0 ms".data
  consoleOutput := true

/-- C1 is false on the code: one `try/except` wraps the whole tick body
(monitor.py lines 200-250), so on this tick — where only the memory
provider fails — no cpu, disk, network or reachability record is written
at all; the tick's entire output is the caught error report. -/
theorem c1_counterexample :
    tick 5 "8.8.8.8" c1inp = errorEvents "memory provider failure"
    ∧ (tick 5 "8.8.8.8" c1inp).filter Event.isCategoryLog = []
    ∧ c1inp.mem = .error "memory provider failure"
    ∧ c1inp.cpu = .ok ⟨0, 1, [], []⟩
    ∧ c1inp.disk = .ok ⟨⟨0, 0, 0, 0⟩, .ok []⟩
    ∧ c1inp.net = .ok ⟨0, 0, 0, 0⟩ :=
  ⟨rfl, rfl, rfl, rfl, rfl, rfl⟩

/-- C1 amended: when sampling one category raises (here: memory, after CPU
sampled fine), the error is caught and reported once via the main/error
channel and the loop does not terminate — but the remaining categories are
NOT processed in that tick: no category record at all is written, because
the single blanket handler wraps the whole tick body. -/
theorem c1_amended_tick_aborts (n : ℕ) (host : String) (inp : TickInput)
    (rest : List TickInput) (c : CpuRaw) (e : String)
    (hc : inp.cpu = .ok c) (hm : inp.mem = .error e) :
    tick n host inp = errorEvents e
    ∧ (tick n host inp).filter Event.isCategoryLog = []
    ∧ (tick n host inp).filter Event.isMainError
        = [.mainError ("Error in monitoring loop: " ++ e)]
    ∧ runTicks n host (inp :: rest) = errorEvents e :: runTicks n host rest
    ∧ (runTicks n host (inp :: rest)).length = rest.length + 1 := by
  have h1 : tick n host inp = errorEvents e := by
    unfold tick
    rw [hc, hm]
  refine ⟨h1, ?_, ?_, ?_, ?_⟩
  · rw [h1]; rfl
  · rw [h1]; rfl
  · unfold runTicks
    rw [List.map_cons, h1]
  · simp [runTicks]

/-- Witness for the amended C1, reusing the counterexample's tick input
followed by one healthy-input tick. -/
theorem c1_amended_witness :
    tick 5 "8.8.8.8" c1inp = errorEvents "memory provider failure"
    ∧ (tick 5 "8.8.8.8" c1inp).filter Event.isMainError
        = [.mainError "Error in monitoring loop: memory provider failure"] :=
  haveI h := c1_amended_tick_aborts 5 "8.8.8.8" c1inp [] ⟨0, 1, [], []⟩
    "memory provider failure" rfl rfl
  ⟨h.1, h.2.2.1⟩

/-- C10: with every provider sampled fine but an empty `top_processes` on
the cpu (or memory) snapshot, the tick writes all four category records
first, then the summary construction indexes `top_processes[0]`, raises,
and the loop-level handler catches it: one main-channel error entry, no
main-channel summary lines and no console output for that tick. -/
theorem c10_empty_top_crashes_summaries (n : ℕ) (host : String) (inp : TickInput)
    (c : CpuRaw) (m : MemRaw) (d : DiskRaw) (w : NetIOCounters)
    (hc : inp.cpu = .ok c) (hm : inp.mem = .ok m) (hd : inp.disk = .ok d)
    (hn : inp.net = .ok w)
    (hempty : (get_cpu_stats n c).top_processes = []
      ∨ (get_memory_stats n m).top_processes = []) :
    tick n host inp
      = [ .logged "cpu" (cpuEntry (get_cpu_stats n c)),
          .logged "memory" (memEntry (get_memory_stats n m)),
          .logged "disk" (diskEntry (get_disk_io d)),
          .logged "network"
            (netEntry (get_network_stats w) (ping_network inp.ping host) host) ]
        ++ errorEvents "list index out of range"
    ∧ (tick n host inp).filter Event.isMainInfo = []
    ∧ (tick n host inp).filter Event.isConsoleOut = []
    ∧ (tick n host inp).filter Event.isMainError
        = [.mainError "Error in monitoring loop: list index out of range"]
    ∧ (tick n host inp).filter Event.isCategoryLog
        = [ .logged "cpu" (cpuEntry (get_cpu_stats n c)),
            .logged "memory" (memEntry (get_memory_stats n m)),
            .logged "disk" (diskEntry (get_disk_io d)),
            .logged "network"
              (netEntry (get_network_stats w) (ping_network inp.ping host) host) ] := by
  have h1 : tick n host inp
      = [ .logged "cpu" (cpuEntry (get_cpu_stats n c)),
          .logged "memory" (memEntry (get_memory_stats n m)),
          .logged "disk" (diskEntry (get_disk_io d)),
          .logged "network"
            (netEntry (get_network_stats w) (ping_network inp.ping host) host) ]
        ++ errorEvents "list index out of range" := by
    unfold tick
    rw [hc, hm, hd, hn]
    dsimp only
    rcases hempty with he | he
    · rw [he]
      rfl
    · cases hch : (get_cpu_stats n c).top_processes with
      | nil => rfl
      | cons c0 cs =>
        rw [he]
        rfl
  refine ⟨h1, ?_, ?_, ?_, ?_⟩ <;> rw [h1] <;> rfl

/-- The tick input of the C10 witness: every provider healthy,
`PROCESS_COUNT = 0` so the cpu snapshot's top list is empty. -/
def c10inp : TickInput where
  cpu := .ok ⟨0, 1, [], []⟩
  mem := .ok ⟨⟨1, 0, 0, 0⟩, []⟩
  disk := .ok ⟨⟨0, 0, 0, 0⟩, .ok []⟩
  net := .ok ⟨0, 0, 0, 0⟩
  ping := .raised "unreachable"
  consoleOutput := true

/-- Witness for C10 with `PROCESS_COUNT = 0`. -/
theorem c10_witness :
    (tick 0 "8.8.8.8" c10inp).filter Event.isMainInfo = []
    ∧ (tick 0 "8.8.8.8" c10inp).filter Event.isConsoleOut = []
    ∧ (tick 0 "8.8.8.8" c10inp).filter Event.isMainError
        = [.mainError "Error in monitoring loop: list index out of range"] :=
  haveI h := c10_empty_top_crashes_summaries 0 "8.8.8.8" c10inp ⟨0, 1, [], []⟩
    ⟨⟨1, 0, 0, 0⟩, []⟩ ⟨⟨0, 0, 0, 0⟩, .ok []⟩ ⟨0, 0, 0, 0⟩ rfl rfl rfl rfl (Or.inl rfl)
  ⟨h.2.1, h.2.2.1, h.2.2.2.1⟩

end Monitor
